import Mathlib

/-!
A shallow embedding of the poll / session / feed core of `app.py` (a Flask +
sqlite application), together with theorems checking the specification's
claims about it.

Modelling conventions:

* Timestamps are `Nat`.  The source stores `datetime.utcnow().isoformat()`
  strings and compares them both as parsed datetimes (`poll_is_expired`,
  session cutoffs) and lexicographically as SQL `TEXT` (the feed's
  `created_at > ?` / `updated_at > ?` and the `ORDER BY` clauses).  For
  fixed-width ISO strings produced by one clock both orders agree with the
  time order, so a single linearly ordered `Nat` clock is faithful.
* Each sqlite table becomes a `List` of row structures, kept in insertion
  order (the order sqlite scans them in for the queries used here).
* The sqlite connection-per-request discipline is modelled by explicit state
  passing: every endpoint takes the committed database and returns the
  committed database.  A branch that ends in `conn.rollback()` (or in
  `conn.close()` with no commit, which discards the open implicit
  transaction) returns the original database; a branch reaching
  `conn.commit()` returns the mutated one.
* `datetime.fromisoformat` failure (the `since` query parameter) is made
  explicit in the input: the parameter arrives as `Option (Option Nat)` -
  `none` when absent or empty (falsy in Python), `some none` when present
  but unparseable, `some (some t)` when it parses to instant `t`.
* `secrets.token_urlsafe(32)` is nondeterministic, so the fresh token is an
  explicit argument of `create_session`.
* Python `str.strip()` is modelled by `strip` below (drop leading and
  trailing whitespace characters); Python `len` on a string is the number
  of code points, which is `String.length`.
* The `request_too_large` / rate-limiting pre-filter is out of scope per the
  specification (transport concern) and is elided.
-/

def MAX_CIPHER_LENGTH : Nat := 200000

def MAX_TEXT_LENGTH : Nat := 2000

def MAX_USERNAME_LENGTH : Nat := 40

def MAX_OPTIONS : Nat := 6

def MAX_OPTION_LENGTH : Nat := 120

/-- `POLL_DURATION = timedelta(hours=6)`, in seconds. -/
def POLL_DURATION : Nat := 6 * 3600

/-- `SESSION_TTL = timedelta(hours=12)`, in seconds. -/
def SESSION_TTL : Nat := 12 * 3600

/-- Python `str.strip()`: remove leading and trailing whitespace. -/
def strip (s : String) : String :=
  String.mk (((s.data.dropWhile Char.isWhitespace).reverse.dropWhile Char.isWhitespace).reverse)

/-- A row of the `messages` table; the JSON `payload` column is expanded
into its three fields (`username`, `cipher`, `iv`); the `type` column is
always `'chat'` and is elided. -/
structure MessageRow where
  id : Nat
  username : String
  cipher : String
  iv : String
  created_at : Nat
deriving Repr, DecidableEq

/-- A row of the `polls` table. -/
structure PollRow where
  id : Nat
  question : String
  created_at : Nat
  created_by : String
  closed : Bool
  expires_at : Nat
  updated_at : Nat
deriving Repr, DecidableEq

/-- A row of the `poll_options` table (the surrogate `id` column is unused
by every query and elided). -/
structure PollOptionRow where
  poll_id : Nat
  option_index : Nat
  option_text : String
deriving Repr, DecidableEq

/-- A row of the `poll_votes` table; primary key `(poll_id, username)`. -/
structure PollVoteRow where
  poll_id : Nat
  username : String
  option_index : Nat
  created_at : Nat
deriving Repr, DecidableEq

/-- A row of the `sessions` table; primary key `username`. -/
structure SessionRow where
  username : String
  token : String
  created_at : Nat
  last_seen : Nat
deriving Repr, DecidableEq

/-- The whole sqlite database.  `next_message_id` / `next_poll_id` model the
AUTOINCREMENT id sequences. -/
structure DB where
  messages : List MessageRow
  polls : List PollRow
  poll_options : List PollOptionRow
  poll_votes : List PollVoteRow
  sessions : List SessionRow
  next_message_id : Nat
  next_poll_id : Nat
deriving Repr, DecidableEq

def emptyDB : DB := ⟨[], [], [], [], [], 1, 1⟩

/-- `normalize_username`: strip, reject empty or over-long names. -/
def normalize_username (value : Option String) : Option String :=
  let username := strip (value.getD "")
  if username = "" ∨ MAX_USERNAME_LENGTH < username.length then none else some username

/-- `poll_is_expired`: `fromisoformat(row.expires_at) <= utcnow()`. -/
def poll_is_expired (row : PollRow) (now : Nat) : Bool :=
  decide (row.expires_at ≤ now)

/-- `SELECT COUNT(*) FROM poll_options WHERE poll_id = ?` (the check used by
the vote endpoint). -/
def option_count (db : DB) (poll_id : Nat) : Nat :=
  (db.poll_options.filter (fun o => o.poll_id == poll_id)).length

/-- `fetch_poll_options`: option texts of a poll ordered by `option_index`. -/
def fetch_poll_options (db : DB) (poll_id : Nat) : List String :=
  (((db.poll_options.filter (fun o => o.poll_id == poll_id)).mergeSort
      (fun a b => decide (a.option_index ≤ b.option_index))).map (fun o => o.option_text))

/-- `fetch_poll_votes`: the derived tally.  The source groups the mapping
rows by `option_index` and writes each group's count into a zero-filled
array of length `option_count`, skipping any index outside
`[0, option_count)`; slot `i` therefore ends up holding exactly the number
of vote rows of this poll with `option_index = i`. -/
def fetch_poll_votes (db : DB) (poll_id : Nat) (option_count : Nat) : List Nat :=
  (List.range option_count).map
    (fun i => (db.poll_votes.filter
      (fun v => v.poll_id == poll_id && v.option_index == i)).length)

/-- `ensure_session`: the in-transaction session validation.  Returns the
flag together with the connection state after the statements it executed
(whether that state persists is the caller's commit/rollback decision). -/
def ensure_session (db : DB) (now : Nat) (username : String) (token : Option String) :
    Bool × DB :=
  match token with
  | none => (false, db)
  | some t =>
    if t = "" then (false, db)
    else
      match db.sessions.find? (fun s => s.username == username) with
      | none => (false, db)
      | some row =>
        if row.token ≠ t then (false, db)
        else if row.last_seen + SESSION_TTL < now then
          (false, { db with sessions := db.sessions.filter (fun s => s.username != username) })
        else
          (true, { db with sessions := (db.sessions.map
              (fun s => if s.username == username then { s with last_seen := now } else s)) })

inductive SessionResult where
  | invalidUsername
  | conflict
  | created (token : String)
deriving Repr, DecidableEq

/-- The `/session` endpoint (`create_session`). -/
def create_session (db : DB) (now : Nat) (usernameValue : Option String)
    (newToken : String) : SessionResult × DB :=
  match normalize_username usernameValue with
  | none => (.invalidUsername, db)
  | some username =>
    match db.sessions.find? (fun s => s.username == username) with
    | some row =>
      if now ≤ row.last_seen + SESSION_TTL then (.conflict, db)
      else
        (.created newToken, { db with sessions :=
          (db.sessions.filter (fun s => s.username != username))
            ++ [⟨username, newToken, now, now⟩] })
    | none =>
      (.created newToken, { db with sessions :=
        db.sessions ++ [⟨username, newToken, now, now⟩] })

inductive ChatResult where
  | invalidMessage
  | payloadTooLarge
  | unauthorized
  | noContent
deriving Repr, DecidableEq

/-- The `/` POST endpoint (`chat`): append one encrypted envelope. -/
def post_chat (db : DB) (now : Nat)
    (usernameValue cipher iv token : Option String) : ChatResult × DB :=
  match normalize_username usernameValue, cipher, iv with
  | some username, some c, some v =>
    if MAX_CIPHER_LENGTH < c.length ∨ 64 < v.length then (.payloadTooLarge, db)
    else
      let es := ensure_session db now username token
      if es.1 then
        (.noContent, { es.2 with
          messages := es.2.messages ++ [⟨es.2.next_message_id, username, c, v, now⟩],
          next_message_id := es.2.next_message_id + 1 })
      else (.unauthorized, db)
  | _, _, _ => (.invalidMessage, db)

inductive PollCreateResult where
  | invalidUsername
  | badPoll
  | unauthorized
  | created
deriving Repr, DecidableEq

/-- The `/poll` endpoint (`new_poll`).  Note the source drops falsy /
whitespace-only options before validating the count. -/
def new_poll (db : DB) (now : Nat) (question : Option String) (options : List String)
    (usernameValue token : Option String) : PollCreateResult × DB :=
  let q := strip (question.getD "")
  let opts := (options.filter (fun o => strip o != "")).map strip
  match normalize_username usernameValue with
  | none => (.invalidUsername, db)
  | some user =>
    if q.length = 0 ∨ MAX_TEXT_LENGTH < q.length then (.badPoll, db)
    else if opts.length < 2 ∨ MAX_OPTIONS < opts.length then (.badPoll, db)
    else if opts.any (fun o => decide (MAX_OPTION_LENGTH < o.length)) then (.badPoll, db)
    else
      let es := ensure_session db now user token
      if es.1 then
        let db1 := es.2
        let poll_id := db1.next_poll_id
        (.created, { db1 with
          polls := db1.polls ++ [⟨poll_id, q, now, user, false, now + POLL_DURATION, now⟩],
          poll_options := (db1.poll_options ++
            opts.enum.map (fun p => ⟨poll_id, p.1, p.2⟩)),
          next_poll_id := poll_id + 1 })
      else (.unauthorized, db)

inductive VoteResult where
  | invalidPollOrOption
  | invalidUsername
  | unauthorized
  | notFound
  | pollClosed
  | noContent
deriving Repr, DecidableEq

/-- The commit tail of the `/vote` endpoint: delete the voter's row,
insert the new one, bump the poll's `updated_at`, commit. -/
def vote_commit (db1 : DB) (now : Nat) (poll_id idx : Int) (user : String) :
    VoteResult × DB :=
  let db2 : DB := { db1 with poll_votes :=
      ((db1.poll_votes.filter (fun v => !((v.poll_id : Int) == poll_id && v.username == user)))
        ++ [⟨poll_id.toNat, user, idx.toNat, now⟩]) }
  (.noContent, { db2 with polls := db2.polls.map (fun p =>
      if (p.id : Int) == poll_id then { p with updated_at := now } else p) })

/-- The `/vote` endpoint (`vote`).  Branches that end in `conn.rollback()`
return the original `db`. -/
def vote (db : DB) (now : Nat) (poll_id_value option_value : Option Int)
    (usernameValue token : Option String) : VoteResult × DB :=
  match poll_id_value, option_value with
  | some poll_id, some idx =>
    match normalize_username usernameValue with
    | some user =>
      let es := ensure_session db now user token
      if es.1 then
        let db1 := es.2
        match db1.polls.find? (fun p => (p.id : Int) == poll_id) with
        | some row =>
          if poll_is_expired row now || row.closed then
            (.pollClosed, { db1 with polls := db1.polls.map (fun p =>
              if (p.id : Int) == poll_id then
                { p with closed := true, updated_at := now } else p) })
          else
            let cnt := (db1.poll_options.filter (fun o => (o.poll_id : Int) == poll_id)).length
            if 0 ≤ idx ∧ idx < (cnt : Int) then
              match db1.poll_votes.find?
                  (fun v => (v.poll_id : Int) == poll_id && v.username == user) with
              | some existing =>
                if (existing.option_index : Int) == idx then (.noContent, db)
                else vote_commit db1 now poll_id idx user
              | none => vote_commit db1 now poll_id idx user
            else (.notFound, db)
        | none => (.notFound, db)
      else (.unauthorized, db)
    | none => (.invalidUsername, db)
  | _, _ => (.invalidPollOrOption, db)

inductive CloseResult where
  | invalidRequest
  | unauthorized
  | notFound
  | forbidden
  | noContent
deriving Repr, DecidableEq

/-- The `/poll/close` endpoint (`close_poll`). -/
def close_poll (db : DB) (now : Nat) (poll_id_value : Option Int)
    (usernameValue token : Option String) : CloseResult × DB :=
  match poll_id_value, normalize_username usernameValue with
  | some poll_id, some user =>
    let es := ensure_session db now user token
    if es.1 then
      let db1 := es.2
      match db1.polls.find? (fun p => (p.id : Int) == poll_id) with
      | some row =>
        if row.created_by ≠ user then (.forbidden, db)
        else
          (.noContent, { db1 with polls := db1.polls.map (fun p =>
            if (p.id : Int) == poll_id then
              { p with closed := true, updated_at := now } else p) })
      | none => (.notFound, db)
    else (.unauthorized, db)
  | _, _ => (.invalidRequest, db)

/-- A chat item of the feed (`payload` with `created_at` / `sort_at`). -/
structure ChatItem where
  username : String
  cipher : String
  iv : String
  created_at : Nat
  sort_at : Nat
deriving Repr, DecidableEq

/-- A poll item of the feed (`poll_row_to_payload`). -/
structure PollItem where
  id : Nat
  question : String
  options : List String
  votes : List Nat
  voters : List (String × Nat)
  created_at : Nat
  updated_at : Nat
  username : String
  closed : Bool
  expires_at : Nat
  sort_at : Nat
deriving Repr, DecidableEq

inductive FeedItem where
  | chat (item : ChatItem)
  | poll (item : PollItem)
deriving Repr, DecidableEq

def FeedItem.sort_at : FeedItem → Nat
  | .chat c => c.sort_at
  | .poll p => p.sort_at

/-- `poll_row_to_payload`. -/
def poll_row_to_payload (db : DB) (row : PollRow) : PollItem :=
  let options := fetch_poll_options db row.id
  { id := row.id
    question := row.question
    options := options
    votes := fetch_poll_votes db row.id options.length
    voters := ((db.poll_votes.filter (fun v => v.poll_id == row.id)).map
      (fun v => (v.username, v.option_index)))
    created_at := row.created_at
    updated_at := row.updated_at
    username := row.created_by
    closed := row.closed
    expires_at := row.expires_at
    sort_at := row.updated_at }

/-- The lazy-expiry sweep of the feed endpoint:
`UPDATE polls SET closed = 1, updated_at = now WHERE closed = 0 AND expires_at <= now`. -/
def sweep_expired (polls : List PollRow) (now : Nat) : List PollRow :=
  polls.map (fun p =>
    if p.closed = false ∧ p.expires_at ≤ now then
      { p with closed := true, updated_at := now } else p)

def chat_row_to_item (m : MessageRow) : FeedItem :=
  .chat ⟨m.username, m.cipher, m.iv, m.created_at, m.created_at⟩

/-- The `/messages` endpoint (`get_messages`).  `since` is the parse result
of the `since` query parameter (see the conventions note above). -/
def get_messages (db : DB) (now : Nat) (since : Option (Option Nat)) :
    List FeedItem × DB :=
  let db1 : DB := { db with polls := sweep_expired db.polls now }
  let since_value : Option Nat := since.bind id
  let chat_rows : List MessageRow :=
    match since_value with
    | some c => db1.messages.filter (fun m => decide (c < m.created_at))
    | none => db1.messages
  let poll_rows : List PollRow :=
    match since_value with
    | some c => db1.polls.filter (fun p => decide (c < p.updated_at))
    | none => db1.polls
  let chats : List (Nat × FeedItem) :=
    (chat_rows.mergeSort (fun a b => decide (a.created_at ≤ b.created_at))).map
      (fun m => (m.created_at, chat_row_to_item m))
  let polls : List (Nat × FeedItem) :=
    (poll_rows.mergeSort (fun a b => decide (a.updated_at ≤ b.updated_at))).map
      (fun p => (p.updated_at, .poll (poll_row_to_payload db1 p)))
  (((chats ++ polls).mergeSort (fun a b => decide (a.1 ≤ b.1))).map Prod.snd, db1)

/-- The states reachable from a fresh database through the endpoints. -/
inductive Reachable : DB → Prop where
  | init : Reachable emptyDB
  | chat_step {db} (now : Nat) (u c v t : Option String) :
      Reachable db → Reachable (post_chat db now u c v t).2
  | session_step {db} (now : Nat) (u : Option String) (tok : String) :
      Reachable db → Reachable (create_session db now u tok).2
  | poll_step {db} (now : Nat) (q : Option String) (opts : List String)
      (u t : Option String) : Reachable db → Reachable (new_poll db now q opts u t).2
  | vote_step {db} (now : Nat) (pid idx : Option Int) (u t : Option String) :
      Reachable db → Reachable (vote db now pid idx u t).2
  | close_step {db} (now : Nat) (pid : Option Int) (u t : Option String) :
      Reachable db → Reachable (close_poll db now pid u t).2
  | fetch_step {db} (now : Nat) (since : Option (Option Nat)) :
      Reachable db → Reachable (get_messages db now since).2

/-! ### Basic facts about the operations -/

/-- `ensure_session` touches only the `sessions` table. -/
theorem ensure_session_eta (db : DB) (now : Nat) (u : String) (t : Option String) :
    (ensure_session db now u t).2 =
      { db with sessions := (ensure_session db now u t).2.sessions } := by
  unfold ensure_session
  cases t with
  | none => rfl
  | some s =>
    dsimp only
    split
    · rfl
    · split
      · rfl
      · split
        · rfl
        · split
          · rfl
          · rfl

theorem ensure_session_polls (db : DB) (now : Nat) (u : String) (t : Option String) :
    (ensure_session db now u t).2.polls = db.polls := by
  rw [ensure_session_eta]

theorem ensure_session_poll_options (db : DB) (now : Nat) (u : String) (t : Option String) :
    (ensure_session db now u t).2.poll_options = db.poll_options := by
  rw [ensure_session_eta]

theorem ensure_session_poll_votes (db : DB) (now : Nat) (u : String) (t : Option String) :
    (ensure_session db now u t).2.poll_votes = db.poll_votes := by
  rw [ensure_session_eta]

theorem ensure_session_messages (db : DB) (now : Nat) (u : String) (t : Option String) :
    (ensure_session db now u t).2.messages = db.messages := by
  rw [ensure_session_eta]

/-! ### C9: an unparseable cursor is treated as an absent cursor -/

/-- C9: when the `since` query parameter is present but does not parse as an
ISO timestamp, the feed call behaves exactly like a call with no cursor:
it succeeds and returns the full history. -/
theorem c9_unparseable_cursor_is_absent (db : DB) (now : Nat) :
    get_messages db now (some none) = get_messages db now none := rfl

/-! ### C6: contract of the session validation -/

/-- C6 (amended): `ensure_session` fails closed when no session row exists
or the stored token differs; when the stored token matches and the session
is stale - where stale means `now - last_seen > SESSION_TTL`, strictly - it
fails and deletes the row; otherwise it succeeds and refreshes `last_seen`
to `now`. -/
theorem c6_validate_fails_closed (db : DB) (now : Nat) (u t : String) (ht : t ≠ "") :
    (db.sessions.find? (fun s => s.username == u) = none →
      ensure_session db now u (some t) = (false, db))
    ∧ (∀ row, db.sessions.find? (fun s => s.username == u) = some row →
        row.token ≠ t → ensure_session db now u (some t) = (false, db))
    ∧ (∀ row, db.sessions.find? (fun s => s.username == u) = some row →
        row.token = t → row.last_seen + SESSION_TTL < now →
        ensure_session db now u (some t) =
          (false, { db with sessions := db.sessions.filter (fun s => s.username != u) }))
    ∧ (∀ row, db.sessions.find? (fun s => s.username == u) = some row →
        row.token = t → ¬(row.last_seen + SESSION_TTL < now) →
        ensure_session db now u (some t) =
          (true, { db with sessions := (db.sessions.map (fun s =>
            if s.username == u then { s with last_seen := now } else s)) })) := by
  refine ⟨?_, ?_, ?_, ?_⟩
  · intro hf
    unfold ensure_session
    simp [ht, hf]
  · intro row hf htok
    unfold ensure_session
    simp [ht, hf, htok]
  · intro row hf htok hstale
    unfold ensure_session
    simp [ht, hf, htok, hstale]
  · intro row hf htok hlive
    unfold ensure_session
    simp [ht, hf, htok, hlive]

def db_c6x : DB := ⟨[], [], [], [], [⟨"alice", "tok", 0, 0⟩], 1, 1⟩

/-- C6 counterexample: at `now = SESSION_TTL` the session created (and last
seen) at instant `0` satisfies `now - last_seen_at ≥ SESSION_TTL`, so the
claim demands that validation fail; the code treats the session as live,
returns true and refreshes `last_seen` instead (the source condition is the
strict `last_seen < now - SESSION_TTL`). -/
theorem c6_counterexample :
    db_c6x.sessions = [⟨"alice", "tok", 0, 0⟩]
    ∧ SESSION_TTL ≤ SESSION_TTL - 0
    ∧ (ensure_session db_c6x SESSION_TTL "alice" (some "tok")).1 = true
    ∧ (ensure_session db_c6x SESSION_TTL "alice" (some "tok")).2.sessions =
        [⟨"alice", "tok", 0, SESSION_TTL⟩] := by decide

def db_c6w : DB := ⟨[], [], [], [], [⟨"alice", "tok", 0, 0⟩], 1, 1⟩

theorem c6_witness :
    ensure_session db_c6w 1 "alice" (some "tok") =
      (true, { db_c6w with sessions := (db_c6w.sessions.map (fun s =>
        if s.username == "alice" then { s with last_seen := 1 } else s)) }) :=
  (c6_validate_fails_closed db_c6w 1 "alice" "tok" (by decide)).2.2.2
    ⟨"alice", "tok", 0, 0⟩ (by decide) (by decide) (by decide)

/-! ### C7: contract of session start -/

/-- C7 (amended): `create_session` fails with `Conflict` when a session row
for the identity exists and is live, where live means
`now - last_seen ≤ SESSION_TTL` (inclusive at the boundary); when the
existing row is stale (`now - last_seen > SESSION_TTL`) it deletes the
stale row - invalidating its token - and creates a fresh session carrying
the freshly generated token; with no existing row it creates the session
directly. -/
theorem c7_start_session_contract (db : DB) (now : Nat) (uv : Option String)
    (u tok : String) (hu : normalize_username uv = some u) :
    (∀ row, db.sessions.find? (fun s => s.username == u) = some row →
        now ≤ row.last_seen + SESSION_TTL →
        create_session db now uv tok = (.conflict, db))
    ∧ (∀ row, db.sessions.find? (fun s => s.username == u) = some row →
        row.last_seen + SESSION_TTL < now →
        create_session db now uv tok = (.created tok,
          { db with sessions :=
            ((db.sessions.filter (fun s => s.username != u)) ++ [⟨u, tok, now, now⟩]) }))
    ∧ (db.sessions.find? (fun s => s.username == u) = none →
        create_session db now uv tok = (.created tok,
          { db with sessions := db.sessions ++ [⟨u, tok, now, now⟩] })) := by
  refine ⟨?_, ?_, ?_⟩
  · intro row hf hlive
    unfold create_session
    simp [hu, hf, hlive]
  · intro row hf hstale
    unfold create_session
    have : ¬ now ≤ row.last_seen + SESSION_TTL := by omega
    simp [hu, hf, this]
  · intro hf
    unfold create_session
    simp [hu, hf]

def db_c7x : DB := ⟨[], [], [], [], [⟨"alice", "tok", 0, 0⟩], 1, 1⟩

/-- C7 counterexample: at `now = SESSION_TTL` the session last seen at `0`
is not live in the claim's sense (`now - last_seen_at < SESSION_TTL` fails),
so the claim demands a success that invalidates the stale token; the code
returns `Conflict` and leaves the old session in place (the source treats
`last_seen ≥ now - SESSION_TTL` as live). -/
theorem c7_counterexample :
    db_c7x.sessions = [⟨"alice", "tok", 0, 0⟩]
    ∧ ¬(SESSION_TTL - 0 < SESSION_TTL)
    ∧ (create_session db_c7x SESSION_TTL (some "alice") "fresh").1 = .conflict
    ∧ (create_session db_c7x SESSION_TTL (some "alice") "fresh").2 = db_c7x := by decide

def db_c7w : DB := ⟨[], [], [], [], [⟨"alice", "tok", 0, 0⟩], 1, 1⟩

theorem c7_witness :
    create_session db_c7w (2 * SESSION_TTL + 1) (some "alice") "fresh" =
      (.created "fresh", { db_c7w with sessions :=
        ((db_c7w.sessions.filter (fun s => s.username != "alice"))
          ++ [⟨"alice", "fresh", 2 * SESSION_TTL + 1, 2 * SESSION_TTL + 1⟩]) }) :=
  (c7_start_session_contract db_c7w (2 * SESSION_TTL + 1) (some "alice") "alice" "fresh"
    (by decide)).2.1 ⟨"alice", "tok", 0, 0⟩ (by decide) (by decide)

/-! ### Branch characterizations of the vote endpoint -/

section VoteBranches

variable (db : DB) (now : Nat) (pid idx : Int) (uv t : Option String) (u : String)

/-- Vote rollback branch: referenced poll absent. -/
theorem vote_poll_absent (hu : normalize_username uv = some u)
    (hs : (ensure_session db now u t).1 = true)
    (hfind : db.polls.find? (fun p => (p.id : Int) == pid) = none) :
    vote db now (some pid) (some idx) uv t = (.notFound, db) := by
  unfold vote
  rw [hu]
  simp only [ensure_session_polls, hs, if_true, hfind]

/-- Vote rollback branch: option index out of range on an open poll. -/
theorem vote_option_out_of_range (row : PollRow)
    (hu : normalize_username uv = some u)
    (hs : (ensure_session db now u t).1 = true)
    (hfind : db.polls.find? (fun p => (p.id : Int) == pid) = some row)
    (hopen : row.closed = false) (hexp : now < row.expires_at)
    (hidx : ¬(0 ≤ idx ∧ idx <
      ((db.poll_options.filter (fun o => (o.poll_id : Int) == pid)).length : Int))) :
    vote db now (some pid) (some idx) uv t = (.notFound, db) := by
  have hpe : poll_is_expired row now = false := by
    simp only [poll_is_expired, decide_eq_false_iff_not]
    omega
  unfold vote
  rw [hu]
  simp only [ensure_session_polls, ensure_session_poll_options, hs, if_true, hfind,
    hpe, hopen, Bool.or_self, Bool.false_eq_true, if_false, hidx]

/-- Vote rollback branch: repeated identical vote is a no-op. -/
theorem vote_noop_rollback (row : PollRow) (vrow : PollVoteRow)
    (hu : normalize_username uv = some u)
    (hs : (ensure_session db now u t).1 = true)
    (hfind : db.polls.find? (fun p => (p.id : Int) == pid) = some row)
    (hopen : row.closed = false) (hexp : now < row.expires_at)
    (hidx : 0 ≤ idx ∧ idx <
      ((db.poll_options.filter (fun o => (o.poll_id : Int) == pid)).length : Int))
    (hvote : db.poll_votes.find?
      (fun v => (v.poll_id : Int) == pid && v.username == u) = some vrow)
    (hveq : (vrow.option_index : Int) = idx) :
    vote db now (some pid) (some idx) uv t = (.noContent, db) := by
  have hpe : poll_is_expired row now = false := by
    simp only [poll_is_expired, decide_eq_false_iff_not]
    omega
  unfold vote
  rw [hu]
  simp only [ensure_session_polls, ensure_session_poll_options, ensure_session_poll_votes,
    hs, if_true, hfind, hpe, hopen, Bool.or_self, Bool.false_eq_true, if_false, hidx,
    and_self, hvote, hveq, beq_self_eq_true]

end VoteBranches

/-! ### C3: idempotent repeated vote -/

/-- C3 (amended): when the poll exists, is neither closed nor expired, the
option index is within range, the session validates, and the voter's
current mapping entry already equals the requested option index, the vote
endpoint is a no-op success: it returns 204 and the entire stored state -
vote mapping, poll row with its `updated_at`, and sessions - is exactly the
pre-call state (the transaction is rolled back). -/
theorem c3_idempotent_revote (db : DB) (now : Nat) (pid idx : Int)
    (uv t : Option String) (u : String) (row : PollRow) (vrow : PollVoteRow)
    (hu : normalize_username uv = some u)
    (hs : (ensure_session db now u t).1 = true)
    (hfind : db.polls.find? (fun p => (p.id : Int) == pid) = some row)
    (hopen : row.closed = false) (hexp : now < row.expires_at)
    (hidx : 0 ≤ idx ∧ idx <
      ((db.poll_options.filter (fun o => (o.poll_id : Int) == pid)).length : Int))
    (hvote : db.poll_votes.find?
      (fun v => (v.poll_id : Int) == pid && v.username == u) = some vrow)
    (hveq : (vrow.option_index : Int) = idx) :
    vote db now (some pid) (some idx) uv t = (.noContent, db) :=
  vote_noop_rollback db now pid idx uv t u row vrow hu hs hfind hopen hexp hidx hvote hveq

def db_c3w : DB :=
  ⟨[], [⟨1, "Q", 0, "alice", false, 1000, 5⟩], [⟨1, 0, "A"⟩, ⟨1, 1, "B"⟩],
    [⟨1, "bob", 1, 2⟩], [⟨"bob", "tok", 0, 90⟩], 1, 2⟩

theorem c3_witness :
    vote db_c3w 100 (some 1) (some 1) (some "bob") (some "tok") = (.noContent, db_c3w) :=
  c3_idempotent_revote db_c3w 100 1 1 (some "bob") (some "tok") "bob"
    ⟨1, "Q", 0, "alice", false, 1000, 5⟩ ⟨1, "bob", 1, 2⟩
    (by decide) (by decide) (by decide) (by decide) (by decide) (by decide)
    (by decide) (by decide)

def db_c3x : DB :=
  ⟨[], [⟨1, "Q", 0, "alice", true, 1000, 5⟩], [⟨1, 0, "A"⟩, ⟨1, 1, "B"⟩],
    [⟨1, "bob", 1, 2⟩], [⟨"bob", "tok", 0, 90⟩], 1, 2⟩

/-- C3 counterexample: the claim quantifies over every poll, but on a poll
that is already closed a repeated identical vote (bob re-sends his vote for
option 1) is not a no-op success: it fails with `PollClosed` and rewrites
the poll row's `updated_at` (5 becomes 100). -/
theorem c3_counterexample :
    db_c3x.poll_votes = [⟨1, "bob", 1, 2⟩]
    ∧ (vote db_c3x 100 (some 1) (some 1) (some "bob") (some "tok")).1 = .pollClosed
    ∧ ((vote db_c3x 100 (some 1) (some 1) (some "bob") (some "tok")).2.polls.map
        (fun p => p.updated_at)) = [100]
    ∧ (vote db_c3x 100 (some 1) (some 1) (some "bob") (some "tok")).2 ≠ db_c3x := by
  decide

/-! ### C2: voting on an already-closed poll mutates the poll row -/

def db_c2x : DB :=
  ⟨[], [⟨1, "Q", 0, "alice", true, 1000, 5⟩], [⟨1, 0, "A"⟩, ⟨1, 1, "B"⟩],
    [], [⟨"bob", "tok", 0, 90⟩], 1, 2⟩

/-- C2: evaluation at the failing input.  Poll 1 is already closed (closed
at `updated_at = 5`, not expired).  A vote against it does fail with
`PollClosed`, but it is not effect-free: the code unconditionally re-runs
`UPDATE polls SET closed = 1, updated_at = now` and commits, so `updated_at`
jumps from 5 to 100 (and the in-transaction `last_seen` refresh of the
voter's session is committed too). -/
theorem c2_bug_eval :
    db_c2x.polls.map (fun p => (p.closed, p.updated_at)) = [(true, 5)]
    ∧ (vote db_c2x 100 (some 1) (some 0) (some "bob") (some "tok")).1 = .pollClosed
    ∧ ((vote db_c2x 100 (some 1) (some 0) (some "bob") (some "tok")).2.polls.map
        (fun p => (p.closed, p.updated_at))) = [(true, 100)]
    ∧ ((vote db_c2x 100 (some 1) (some 0) (some "bob") (some "tok")).2.sessions.map
        (fun s => s.last_seen)) = [100] := by
  decide

/-! ### C10: rolled-back vote calls leave the sessions table unchanged -/

/-- C10: the vote branches that end in `conn.rollback()` - missing poll,
option index out of range, and the idempotent repeat-vote no-op - return
the original database unchanged, so the `last_seen` refresh performed by
the in-transaction session validation is discarded and session liveness is
not extended. -/
theorem c10_rollback_discards_session_refresh (db : DB) (now : Nat) (pid idx : Int)
    (uv t : Option String) (u : String)
    (hu : normalize_username uv = some u)
    (hs : (ensure_session db now u t).1 = true) :
    (db.polls.find? (fun p => (p.id : Int) == pid) = none →
      vote db now (some pid) (some idx) uv t = (.notFound, db)
      ∧ (vote db now (some pid) (some idx) uv t).2.sessions = db.sessions)
    ∧ (∀ row, db.polls.find? (fun p => (p.id : Int) == pid) = some row →
        row.closed = false → now < row.expires_at →
        ¬(0 ≤ idx ∧ idx <
          ((db.poll_options.filter (fun o => (o.poll_id : Int) == pid)).length : Int)) →
        vote db now (some pid) (some idx) uv t = (.notFound, db)
        ∧ (vote db now (some pid) (some idx) uv t).2.sessions = db.sessions)
    ∧ (∀ row vrow, db.polls.find? (fun p => (p.id : Int) == pid) = some row →
        row.closed = false → now < row.expires_at →
        (0 ≤ idx ∧ idx <
          ((db.poll_options.filter (fun o => (o.poll_id : Int) == pid)).length : Int)) →
        db.poll_votes.find?
          (fun v => (v.poll_id : Int) == pid && v.username == u) = some vrow →
        (vrow.option_index : Int) = idx →
        vote db now (some pid) (some idx) uv t = (.noContent, db)
        ∧ (vote db now (some pid) (some idx) uv t).2.sessions = db.sessions) := by
  refine ⟨?_, ?_, ?_⟩
  · intro hfind
    have h := vote_poll_absent db now pid idx uv t u hu hs hfind
    exact ⟨h, by rw [h]⟩
  · intro row hfind hopen hexp hidx
    have h := vote_option_out_of_range db now pid idx uv t u row hu hs hfind hopen hexp hidx
    exact ⟨h, by rw [h]⟩
  · intro row vrow hfind hopen hexp hidx hvote hveq
    have h := vote_noop_rollback db now pid idx uv t u row vrow hu hs hfind hopen hexp
      hidx hvote hveq
    exact ⟨h, by rw [h]⟩

def db_c10w : DB :=
  ⟨[], [⟨1, "Q", 0, "alice", false, 1000, 5⟩], [⟨1, 0, "A"⟩, ⟨1, 1, "B"⟩],
    [⟨1, "bob", 1, 2⟩], [⟨"bob", "tok", 0, 90⟩], 1, 2⟩

theorem c10_witness :
    vote db_c10w 100 (some 7) (some 1) (some "bob") (some "tok") = (.notFound, db_c10w)
    ∧ (vote db_c10w 100 (some 7) (some 1) (some "bob") (some "tok")).2.sessions
        = db_c10w.sessions :=
  (c10_rollback_discards_session_refresh db_c10w 100 7 1 (some "bob") (some "tok") "bob"
    (by decide) (by decide)).1 (by decide)

/-! ### C8: createPoll input validation -/

/-- C8 (amended): the poll endpoint first drops every falsy or
whitespace-only option and trims the rest; it then fails with `InvalidInput`
and creates nothing when the trimmed question is empty or over
`MAX_TEXT_LENGTH`, when the surviving options number fewer than 2 or more
than `MAX_OPTIONS`, or when a surviving option exceeds `MAX_OPTION_LENGTH`.
A request whose option list merely contains a blank option is not rejected:
the blank entries are silently discarded before the bounds are checked. -/
theorem c8_create_poll_validation (db : DB) (now : Nat) (question : Option String)
    (options : List String) (uv t : Option String) (u : String)
    (hu : normalize_username uv = some u)
    (hbad :
      ((strip (question.getD "")).length = 0
        ∨ MAX_TEXT_LENGTH < (strip (question.getD "")).length)
      ∨ (((options.filter (fun o => strip o != "")).map strip).length < 2
        ∨ MAX_OPTIONS < ((options.filter (fun o => strip o != "")).map strip).length)
      ∨ ((options.filter (fun o => strip o != "")).map strip).any
          (fun o => decide (MAX_OPTION_LENGTH < o.length)) = true) :
    new_poll db now question options uv t = (.badPoll, db) := by
  unfold new_poll
  rw [hu]
  dsimp only
  split
  · rfl
  · split
    · rfl
    · split
      · rfl
      · tauto

def db_c8w : DB := ⟨[], [], [], [], [⟨"alice", "tok", 0, 0⟩], 1, 1⟩

theorem c8_witness :
    new_poll db_c8w 1 (some "Q") ["Pizza"] (some "alice") (some "tok")
      = (.badPoll, db_c8w) :=
  c8_create_poll_validation db_c8w 1 (some "Q") ["Pizza"] (some "alice") (some "tok")
    "alice" (by decide) (by decide)

def db_c8x : DB := ⟨[], [], [], [], [⟨"alice", "tok", 0, 0⟩], 1, 1⟩

/-- C8 counterexample: a request whose options list contains a
whitespace-only option is accepted, not rejected.  With a valid session,
`new_poll` on options `["Pizza", " ", "Sushi"]` succeeds and creates the
poll with the two non-blank options - the claim demands `InvalidInput` and
no poll. -/
theorem c8_counterexample :
    (new_poll db_c8x 1 (some "Lunch?") ["Pizza", " ", "Sushi"]
        (some "alice") (some "tok")).1 = .created
    ∧ ((new_poll db_c8x 1 (some "Lunch?") ["Pizza", " ", "Sushi"]
        (some "alice") (some "tok")).2.polls.map (fun p => p.id)) = [1]
    ∧ ((new_poll db_c8x 1 (some "Lunch?") ["Pizza", " ", "Sushi"]
        (some "alice") (some "tok")).2.poll_options.map
          (fun o => (o.poll_id, o.option_index, o.option_text)))
        = [(1, 0, "Pizza"), (1, 1, "Sushi")] := by
  decide

/-! ### C4: closure is monotonic -/

/-- Positional preservation of the closed flag from one poll table to the
next: no row that was closed ever reads as open afterwards. -/
def closed_mono (ps qs : List PollRow) : Prop :=
  ∀ (i : Nat) (p q : PollRow),
    ps[i]? = some p → qs[i]? = some q → p.closed = true → q.closed = true

theorem closed_mono_of_eq (ps qs : List PollRow) (h : qs = ps) : closed_mono ps qs := by
  intro i p q h1 h2 hc
  rw [h, h1] at h2
  cases h2
  exact hc

theorem closed_mono_map (ps : List PollRow) (f : PollRow → PollRow)
    (hf : ∀ p, p.closed = true → (f p).closed = true) : closed_mono ps (ps.map f) := by
  intro i p q h1 h2 hc
  rw [List.getElem?_map, h1] at h2
  cases h2
  exact hf p hc

theorem closed_mono_append (ps qs : List PollRow) : closed_mono ps (ps ++ qs) := by
  intro i p q h1 h2 hc
  have hi : i < ps.length := (List.getElem?_eq_some.mp h1).1
  rw [List.getElem?_append, if_pos hi, h1] at h2
  cases h2
  exact hc

/-- The close-or-touch updates used by the vote, close and sweep paths all
preserve a true closed flag. -/
theorem closed_mono_close_update (ps : List PollRow) (pid : Int) (now : Nat) :
    closed_mono ps (ps.map (fun p =>
      if (p.id : Int) == pid then { p with closed := true, updated_at := now } else p)) := by
  apply closed_mono_map
  intro p hc
  dsimp only
  split
  · rfl
  · exact hc

theorem closed_mono_touch_update (ps : List PollRow) (pid : Int) (now : Nat) :
    closed_mono ps (ps.map (fun p =>
      if (p.id : Int) == pid then { p with updated_at := now } else p)) := by
  apply closed_mono_map
  intro p hc
  dsimp only
  split
  · exact hc
  · exact hc

theorem closed_mono_sweep (ps : List PollRow) (now : Nat) :
    closed_mono ps (sweep_expired ps now) := by
  apply closed_mono_map
  intro p hc
  dsimp only
  split
  · rfl
  · exact hc

theorem post_chat_polls (db : DB) (now : Nat) (uv c i t : Option String) :
    (post_chat db now uv c i t).2.polls = db.polls := by
  unfold post_chat
  split
  · dsimp only
    split
    · rfl
    · split
      · rw [ensure_session_polls]
      · rfl
  · rfl

theorem create_session_polls (db : DB) (now : Nat) (uv : Option String) (tok : String) :
    (create_session db now uv tok).2.polls = db.polls := by
  unfold create_session
  split
  · rfl
  · split
    · split
      · rfl
      · rfl
    · rfl

theorem new_poll_polls (db : DB) (now : Nat) (q : Option String) (opts : List String)
    (uv t : Option String) :
    (new_poll db now q opts uv t).2.polls = db.polls
    ∨ ∃ pr, (new_poll db now q opts uv t).2.polls = db.polls ++ [pr] := by
  unfold new_poll
  dsimp only
  split
  · left; rfl
  · split
    · left; rfl
    · split
      · left; rfl
      · split
        · left; rfl
        · split
          · right
            exact ⟨_, by rw [ensure_session_polls]⟩
          · left; rfl

theorem vote_closed_mono (db : DB) (now : Nat) (pid idx : Option Int)
    (uv t : Option String) :
    closed_mono db.polls (vote db now pid idx uv t).2.polls := by
  unfold vote
  split
  case h_2 => exact closed_mono_of_eq _ _ rfl
  split
  case h_2 => exact closed_mono_of_eq _ _ rfl
  dsimp only
  split
  case isFalse => exact closed_mono_of_eq _ _ rfl
  split
  case h_2 => exact closed_mono_of_eq _ _ rfl
  split
  case isTrue =>
    dsimp only
    rw [ensure_session_polls]
    exact closed_mono_close_update _ _ _
  split
  case isFalse => exact closed_mono_of_eq _ _ rfl
  split
  case h_2 =>
    unfold vote_commit
    dsimp only
    rw [ensure_session_polls]
    exact closed_mono_touch_update _ _ _
  split
  case isTrue => exact closed_mono_of_eq _ _ rfl
  unfold vote_commit
  dsimp only
  rw [ensure_session_polls]
  exact closed_mono_touch_update _ _ _

theorem close_poll_closed_mono (db : DB) (now : Nat) (pid : Option Int)
    (uv t : Option String) :
    closed_mono db.polls (close_poll db now pid uv t).2.polls := by
  unfold close_poll
  split
  case h_2 => exact closed_mono_of_eq _ _ rfl
  dsimp only
  split
  case isFalse => exact closed_mono_of_eq _ _ rfl
  split
  case h_2 => exact closed_mono_of_eq _ _ rfl
  split
  case isTrue => exact closed_mono_of_eq _ _ rfl
  dsimp only
  rw [ensure_session_polls]
  exact closed_mono_close_update _ _ _

theorem get_messages_polls (db : DB) (now : Nat) (since : Option (Option Nat)) :
    (get_messages db now since).2.polls = sweep_expired db.polls now := rfl

theorem sweep_expired_closes (ps : List PollRow) (now : Nat) :
    ∀ q ∈ sweep_expired ps now, q.expires_at ≤ now → q.closed = true := by
  intro q hq hexp
  rcases List.mem_map.mp hq with ⟨p, _, hpq⟩
  by_cases hc : p.closed = false ∧ p.expires_at ≤ now
  · rw [if_pos hc] at hpq
    rw [← hpq]
  · rw [if_neg hc] at hpq
    subst hpq
    rcases Bool.eq_false_or_eq_true p.closed with h | h
    · exact h
    · exact absurd ⟨h, hexp⟩ hc

/-- The vote endpoint is the write that observes expiry: when the session
validates and the poll it reads satisfies `now >= expires_at`, the request
fails with `PollClosed` and the committed state has that poll closed. -/
theorem vote_observes_expiry_closes (db : DB) (now : Nat) (pid idx : Int)
    (uv t : Option String) (u : String) (row : PollRow)
    (hu : normalize_username uv = some u)
    (hs : (ensure_session db now u t).1 = true)
    (hfind : db.polls.find? (fun p => (p.id : Int) == pid) = some row)
    (hexp : row.expires_at ≤ now) :
    (vote db now (some pid) (some idx) uv t).1 = .pollClosed
    ∧ ∀ p ∈ (vote db now (some pid) (some idx) uv t).2.polls,
        (p.id : Int) = pid → p.closed = true := by
  have hpe : poll_is_expired row now = true := by
    simp only [poll_is_expired, decide_eq_true_eq]
    exact hexp
  have heq : vote db now (some pid) (some idx) uv t =
      (.pollClosed, { (ensure_session db now u t).2 with
        polls := ((ensure_session db now u t).2.polls.map (fun p =>
          if (p.id : Int) == pid then
            { p with closed := true, updated_at := now } else p)) }) := by
    unfold vote
    rw [hu]
    simp only [ensure_session_polls, hs, if_true, hfind, hpe, Bool.true_or, if_true]
  rw [heq]
  refine ⟨rfl, ?_⟩
  dsimp only
  rw [ensure_session_polls]
  intro p hp hpid
  obtain ⟨q, hq, rfl⟩ := List.mem_map.mp hp
  by_cases hb : ((q.id : Int) == pid) = true
  · rw [if_pos hb]
  · rw [if_neg hb] at hpid ⊢
    exact absurd hpid (by simpa using hb)

/-- C4: poll closure is monotonic across every operation - a closed poll
row is never set back to open by a chat post, a session start, a poll
creation, a vote, an explicit close, or a feed fetch - and any access that
observes `now >= expires_at` leaves the poll closed: the feed's lazy-expiry
sweep (the read side) closes every poll whose `expires_at` has passed, and
a vote that reads an expired poll (the write side) fails with `PollClosed`
and commits that poll closed. -/
theorem c4_closed_is_monotonic :
    (∀ (db : DB) (now : Nat) (uv c i t : Option String),
      closed_mono db.polls (post_chat db now uv c i t).2.polls)
    ∧ (∀ (db : DB) (now : Nat) (uv : Option String) (tok : String),
      closed_mono db.polls (create_session db now uv tok).2.polls)
    ∧ (∀ (db : DB) (now : Nat) (q : Option String) (opts : List String)
        (uv t : Option String),
      closed_mono db.polls (new_poll db now q opts uv t).2.polls)
    ∧ (∀ (db : DB) (now : Nat) (pid idx : Option Int) (uv t : Option String),
      closed_mono db.polls (vote db now pid idx uv t).2.polls)
    ∧ (∀ (db : DB) (now : Nat) (pid : Option Int) (uv t : Option String),
      closed_mono db.polls (close_poll db now pid uv t).2.polls)
    ∧ (∀ (db : DB) (now : Nat) (since : Option (Option Nat)),
      closed_mono db.polls (get_messages db now since).2.polls)
    ∧ (∀ (db : DB) (now : Nat) (since : Option (Option Nat)),
      ∀ q ∈ (get_messages db now since).2.polls, q.expires_at ≤ now → q.closed = true)
    ∧ (∀ (db : DB) (now : Nat) (pid idx : Int) (uv t : Option String) (u : String)
        (row : PollRow),
      normalize_username uv = some u →
      (ensure_session db now u t).1 = true →
      db.polls.find? (fun p => (p.id : Int) == pid) = some row →
      row.expires_at ≤ now →
      (vote db now (some pid) (some idx) uv t).1 = .pollClosed
      ∧ ∀ p ∈ (vote db now (some pid) (some idx) uv t).2.polls,
          (p.id : Int) = pid → p.closed = true) := by
  refine ⟨?_, ?_, ?_, vote_closed_mono, close_poll_closed_mono, ?_, ?_, ?_⟩
  · intro db now uv c i t
    exact closed_mono_of_eq _ _ (post_chat_polls db now uv c i t)
  · intro db now uv tok
    exact closed_mono_of_eq _ _ (create_session_polls db now uv tok)
  · intro db now q opts uv t
    rcases new_poll_polls db now q opts uv t with h | ⟨pr, h⟩
    · exact closed_mono_of_eq _ _ h
    · rw [h]
      exact closed_mono_append _ _
  · intro db now since
    rw [get_messages_polls]
    exact closed_mono_sweep _ _
  · intro db now since
    rw [get_messages_polls]
    exact sweep_expired_closes _ _
  · intro db now pid idx uv t u row hu hs hfind hexp
    exact vote_observes_expiry_closes db now pid idx uv t u row hu hs hfind hexp

def db_c4w : DB :=
  ⟨[], [⟨1, "Q", 0, "alice", false, 50, 5⟩], [⟨1, 0, "A"⟩, ⟨1, 1, "B"⟩],
    [], [⟨"bob", "tok", 0, 90⟩], 1, 2⟩

theorem c4_witness :
    (vote db_c4w 100 (some 1) (some 0) (some "bob") (some "tok")).1 = .pollClosed
    ∧ PollRow.closed ⟨1, "Q", 0, "alice", true, 50, 100⟩ = true :=
  have h := c4_closed_is_monotonic.2.2.2.2.2.2.2 db_c4w 100 1 0 (some "bob") (some "tok")
    "bob" ⟨1, "Q", 0, "alice", false, 50, 5⟩ (by decide) (by decide) (by decide) (by decide)
  ⟨h.1, h.2 ⟨1, "Q", 0, "alice", true, 50, 100⟩ (by decide) (by decide)⟩

/-! ### C1: the derived tally always sums to the size of the vote mapping -/

theorem length_filter_lt_succ (l : List PollVoteRow) (pid n : Nat) :
    (l.filter (fun v => v.poll_id == pid && decide (v.option_index < n + 1))).length
      = (l.filter (fun v => v.poll_id == pid && decide (v.option_index < n))).length
        + (l.filter (fun v => v.poll_id == pid && v.option_index == n)).length := by
  induction l with
  | nil => rfl
  | cons v l ih =>
    simp only [List.filter_cons]
    by_cases hA : v.poll_id = pid
    · by_cases hC : v.option_index < n
      · have hB : v.option_index < n + 1 := by omega
        have hD : ¬(v.option_index = n) := by omega
        simp [hA, hB, hC, hD, ih]
        omega
      · by_cases hD : v.option_index = n
        · have hB : v.option_index < n + 1 := by omega
          simp [hA, hB, hC, hD, ih]
          omega
        · have hB : ¬(v.option_index < n + 1) := by omega
          simp [hA, hB, hC, hD, ih]
    · simp [hA, ih]

/-- The sum of the derived tally counts exactly the vote rows of the poll
whose `option_index` lies inside `[0, option_count)` (rows outside the
range are skipped by the zero-filled array write). -/
theorem fetch_poll_votes_sum (db : DB) (pid n : Nat) :
    (fetch_poll_votes db pid n).sum
      = (db.poll_votes.filter
          (fun v => v.poll_id == pid && decide (v.option_index < n))).length := by
  induction n with
  | zero =>
    simp [fetch_poll_votes]
  | succ n ih =>
    unfold fetch_poll_votes at ih ⊢
    rw [List.range_succ, List.map_append, List.sum_append, ih, length_filter_lt_succ]
    simp

/-- The vote mapping invariant: every stored vote row's `option_index` is
inside the option range of its poll. -/
def votes_in_range (os : List PollOptionRow) (vs : List PollVoteRow) : Prop :=
  ∀ v ∈ vs, v.option_index < (os.filter (fun o => o.poll_id == v.poll_id)).length

theorem votes_in_range_extend_options (os extra : List PollOptionRow)
    (vs : List PollVoteRow) (h : votes_in_range os vs) :
    votes_in_range (os ++ extra) vs := by
  intro v hv
  have := h v hv
  rw [List.filter_append, List.length_append]
  omega

theorem votes_in_range_filter (os : List PollOptionRow) (vs : List PollVoteRow)
    (q : PollVoteRow → Bool) (h : votes_in_range os vs) :
    votes_in_range os (vs.filter q) := by
  intro v hv
  exact h v (List.mem_of_mem_filter hv)

theorem filter_poll_id_toNat (os : List PollOptionRow) (pid : Int) (h : 0 ≤ pid) :
    os.filter (fun o => o.poll_id == pid.toNat)
      = os.filter (fun o => (o.poll_id : Int) == pid) := by
  apply List.filter_congr
  intro o _
  obtain ⟨m, rfl⟩ := Int.eq_ofNat_of_zero_le h
  by_cases he : o.poll_id = m
  · simp [he]
  · simp [he, Int.toNat_natCast]

theorem ensure_session_eq_true_polls (db : DB) (now : Nat) (u : String)
    (t : Option String) :
    votes_in_range (ensure_session db now u t).2.poll_options
        (ensure_session db now u t).2.poll_votes
      ↔ votes_in_range db.poll_options db.poll_votes := by
  rw [ensure_session_poll_options, ensure_session_poll_votes]

theorem post_chat_votes_options (db : DB) (now : Nat) (uv c i t : Option String) :
    (post_chat db now uv c i t).2.poll_votes = db.poll_votes
    ∧ (post_chat db now uv c i t).2.poll_options = db.poll_options := by
  unfold post_chat
  split
  · dsimp only
    split
    · exact ⟨rfl, rfl⟩
    · split
      · exact ⟨ensure_session_poll_votes .., ensure_session_poll_options ..⟩
      · exact ⟨rfl, rfl⟩
  · exact ⟨rfl, rfl⟩

theorem create_session_votes_options (db : DB) (now : Nat) (uv : Option String)
    (tok : String) :
    (create_session db now uv tok).2.poll_votes = db.poll_votes
    ∧ (create_session db now uv tok).2.poll_options = db.poll_options := by
  unfold create_session
  split
  · exact ⟨rfl, rfl⟩
  · split
    · split
      · exact ⟨rfl, rfl⟩
      · exact ⟨rfl, rfl⟩
    · exact ⟨rfl, rfl⟩

theorem close_poll_votes_options (db : DB) (now : Nat) (pid : Option Int)
    (uv t : Option String) :
    (close_poll db now pid uv t).2.poll_votes = db.poll_votes
    ∧ (close_poll db now pid uv t).2.poll_options = db.poll_options := by
  unfold close_poll
  split
  case h_2 => exact ⟨rfl, rfl⟩
  dsimp only
  split
  case isFalse => exact ⟨rfl, rfl⟩
  split
  case h_2 => exact ⟨rfl, rfl⟩
  split
  case isTrue => exact ⟨rfl, rfl⟩
  exact ⟨ensure_session_poll_votes .., ensure_session_poll_options ..⟩

theorem get_messages_votes_options (db : DB) (now : Nat) (since : Option (Option Nat)) :
    (get_messages db now since).2.poll_votes = db.poll_votes
    ∧ (get_messages db now since).2.poll_options = db.poll_options :=
  ⟨rfl, rfl⟩

theorem new_poll_votes_options (db : DB) (now : Nat) (q : Option String)
    (opts : List String) (uv t : Option String) :
    (new_poll db now q opts uv t).2.poll_votes = db.poll_votes
    ∧ ∃ extra, (new_poll db now q opts uv t).2.poll_options = db.poll_options ++ extra := by
  unfold new_poll
  dsimp only
  split
  · exact ⟨rfl, [], (List.append_nil _).symm⟩
  · split
    · exact ⟨rfl, [], (List.append_nil _).symm⟩
    · split
      · exact ⟨rfl, [], (List.append_nil _).symm⟩
      · split
        · exact ⟨rfl, [], (List.append_nil _).symm⟩
        · split
          · refine ⟨ensure_session_poll_votes .., ?_⟩
            exact ⟨_, by rw [ensure_session_poll_options]⟩
          · exact ⟨rfl, [], (List.append_nil _).symm⟩

theorem votes_in_range_vote_commit (db1 : DB) (now : Nat) (poll_id idx : Int)
    (user : String)
    (h : votes_in_range db1.poll_options db1.poll_votes)
    (hpid : 0 ≤ poll_id)
    (hidx : 0 ≤ idx ∧ idx <
      ((db1.poll_options.filter (fun o => (o.poll_id : Int) == poll_id)).length : Int)) :
    votes_in_range (vote_commit db1 now poll_id idx user).2.poll_options
      (vote_commit db1 now poll_id idx user).2.poll_votes := by
  unfold vote_commit
  dsimp only
  intro v hv
  rcases List.mem_append.mp hv with hv | hv
  · exact h v (List.mem_of_mem_filter hv)
  · cases List.mem_singleton.mp hv
    dsimp only
    rw [filter_poll_id_toNat _ _ hpid]
    omega

theorem votes_in_range_vote (db : DB) (now : Nat) (pid idx : Option Int)
    (uv t : Option String) (h : votes_in_range db.poll_options db.poll_votes) :
    votes_in_range (vote db now pid idx uv t).2.poll_options
      (vote db now pid idx uv t).2.poll_votes := by
  unfold vote
  split
  case h_2 => exact h
  split
  case h_2 => exact h
  dsimp only
  split
  case isFalse => exact h
  split
  case h_2 => exact h
  case h_1 row heq =>
    have hrow := List.find?_some heq
    simp only [beq_iff_eq] at hrow
    have hpid := hrow ▸ Int.natCast_nonneg row.id
    split
    case isTrue =>
      dsimp only
      exact (ensure_session_eq_true_polls db now _ t).mpr h
    case isFalse =>
      split
      case isFalse => exact h
      case isTrue hidx =>
        split
        case h_2 =>
          exact votes_in_range_vote_commit _ now _ _ _
            ((ensure_session_eq_true_polls db now _ t).mpr h) hpid hidx
        case h_1 existing heq2 =>
          split
          case isTrue => exact h
          case isFalse =>
            exact votes_in_range_vote_commit _ now _ _ _
              ((ensure_session_eq_true_polls db now _ t).mpr h) hpid hidx

/-- Every state reachable through the endpoints satisfies the vote mapping
invariant: the endpoints only ever insert a vote row after checking
`0 ≤ option < option_count`. -/
theorem reachable_votes_in_range (db : DB) (h : Reachable db) :
    votes_in_range db.poll_options db.poll_votes := by
  induction h with
  | init => intro v hv; cases hv
  | @chat_step dbp now u c v t _ ih =>
    have hc := post_chat_votes_options dbp now u c v t
    rw [hc.1, hc.2]
    exact ih
  | @session_step dbp now u tok _ ih =>
    have hc := create_session_votes_options dbp now u tok
    rw [hc.1, hc.2]
    exact ih
  | @poll_step dbp now q opts u t _ ih =>
    obtain ⟨hv, extra, ho⟩ := new_poll_votes_options dbp now q opts u t
    rw [hv, ho]
    exact votes_in_range_extend_options _ _ _ ih
  | @vote_step dbp now pid idx u t _ ih =>
    exact votes_in_range_vote dbp now pid idx u t ih
  | @close_step dbp now pid u t _ ih =>
    have hc := close_poll_votes_options dbp now pid u t
    rw [hc.1, hc.2]
    exact ih
  | fetch_step now since _ ih =>
    exact ih

/-- C1: in every reachable (observable) state, for every poll id, the sum
of the derived per-option tally equals the number of entries of the vote
mapping for that poll.  The tally is the grouped count of
`fetch_poll_votes`, derived from the mapping on every read; no stored
counter exists anywhere in the data model. -/
theorem c1_tally_sums_to_mapping_count (db : DB) (h : Reachable db) (pid : Nat) :
    (fetch_poll_votes db pid (option_count db pid)).sum
      = (db.poll_votes.filter (fun v => v.poll_id == pid)).length := by
  rw [fetch_poll_votes_sum]
  have hinv := reachable_votes_in_range db h
  apply congrArg List.length
  apply List.filter_congr
  intro v hv
  by_cases hp : v.poll_id = pid
  · have hlt := hinv v hv
    rw [hp] at hlt
    simp only [hp, option_count]
    simp [hlt]
  · simp [hp]

def db_c1w : DB :=
  (vote (new_poll (create_session emptyDB 0 (some "alice") "tok").2
    0 (some "Lunch?") ["Pizza", "Sushi"] (some "alice") (some "tok")).2
    1 (some 1) (some 1) (some "alice") (some "tok")).2

theorem c1_witness :
    ((fetch_poll_votes db_c1w 1 (option_count db_c1w 1)).sum
      = (db_c1w.poll_votes.filter (fun v => v.poll_id == 1)).length)
    ∧ (db_c1w.poll_votes.filter (fun v => v.poll_id == 1)).length = 1 :=
  ⟨c1_tally_sums_to_mapping_count db_c1w
    (Reachable.vote_step 1 (some 1) (some 1) (some "alice") (some "tok")
      (Reachable.poll_step 0 (some "Lunch?") ["Pizza", "Sushi"] (some "alice") (some "tok")
        (Reachable.session_step 0 (some "alice") "tok" Reachable.init))) 1,
   by decide⟩

/-! ### C5: the feed returns exactly the items past the cursor, merged and sorted -/

@[reducible] def feed_le (a b : Nat × FeedItem) : Bool := decide (a.1 ≤ b.1)

theorem feed_merge_perm (xs ys : List (Nat × FeedItem)) :
    ((((xs ++ ys).mergeSort feed_le).map Prod.snd)).Perm
      (xs.map Prod.snd ++ ys.map Prod.snd) := by
  have h := (List.mergeSort_perm (xs ++ ys) feed_le).map Prod.snd
  rwa [List.map_append] at h

theorem feed_merge_pairwise (l : List (Nat × FeedItem))
    (hkey : ∀ x ∈ l, FeedItem.sort_at x.2 = x.1) :
    List.Pairwise (fun a b => FeedItem.sort_at a ≤ FeedItem.sort_at b)
      ((l.mergeSort feed_le).map Prod.snd) := by
  rw [List.pairwise_map]
  have htrans : ∀ a b c : Nat × FeedItem,
      feed_le a b = true → feed_le b c = true → feed_le a c = true := by
    intro a b c hab hbc
    simp only [feed_le, decide_eq_true_eq] at hab hbc ⊢
    omega
  have htotal : ∀ a b : Nat × FeedItem, (feed_le a b || feed_le b a) = true := by
    intro a b
    simp only [feed_le, Bool.or_eq_true, decide_eq_true_eq]
    omega
  have hs := List.sorted_mergeSort htrans htotal l
  have hmem : ∀ x ∈ l.mergeSort feed_le, FeedItem.sort_at x.2 = x.1 := by
    intro x hx
    exact hkey x ((List.mergeSort_perm l feed_le).subset hx)
  refine List.Pairwise.imp_of_mem ?_ hs
  intro a b ha hb hab
  rw [hmem a ha, hmem b hb]
  simp only [feed_le, decide_eq_true_eq] at hab
  exact hab

/-- The message rows selected by the feed for a given cursor. -/
def gm_chat_rows (db : DB) (since : Option (Option Nat)) : List MessageRow :=
  match since.bind id with
  | some c => db.messages.filter (fun m => decide (c < m.created_at))
  | none => db.messages

/-- The poll rows selected by the feed for a given cursor (after the
lazy-expiry sweep). -/
def gm_poll_rows (db : DB) (now : Nat) (since : Option (Option Nat)) : List PollRow :=
  match since.bind id with
  | some c => (sweep_expired db.polls now).filter (fun p => decide (c < p.updated_at))
  | none => sweep_expired db.polls now

theorem get_messages_perm_general (db : DB) (now : Nat) (since : Option (Option Nat)) :
    ((get_messages db now since).1).Perm
      ((gm_chat_rows db since).map chat_row_to_item
        ++ (gm_poll_rows db now since).map
            (fun p => FeedItem.poll (poll_row_to_payload (get_messages db now since).2 p))) := by
  unfold get_messages gm_chat_rows gm_poll_rows
  dsimp only
  refine (feed_merge_perm _ _).trans ?_
  refine List.Perm.append ?_ ?_
  · rw [List.map_map]
    exact (List.mergeSort_perm _ _).map _
  · rw [List.map_map]
    exact (List.mergeSort_perm _ _).map _

theorem get_messages_pairwise_general (db : DB) (now : Nat)
    (since : Option (Option Nat)) :
    List.Pairwise (fun a b => FeedItem.sort_at a ≤ FeedItem.sort_at b)
      (get_messages db now since).1 := by
  unfold get_messages
  dsimp only
  apply feed_merge_pairwise
  intro x hx
  rcases List.mem_append.mp hx with hx | hx
  · obtain ⟨m, hm, rfl⟩ := List.mem_map.mp hx
    rfl
  · obtain ⟨p, hp, rfl⟩ := List.mem_map.mp hx
    rfl

theorem get_messages_cursor_bound (db : DB) (now c : Nat) :
    ∀ x ∈ (get_messages db now (some (some c))).1, c < FeedItem.sort_at x := by
  intro x hx
  rw [(get_messages_perm_general db now (some (some c))).mem_iff] at hx
  rcases List.mem_append.mp hx with hx | hx
  · obtain ⟨m, hm, rfl⟩ := List.mem_map.mp hx
    unfold gm_chat_rows at hm
    exact of_decide_eq_true (List.mem_filter.mp hm).2
  · obtain ⟨p, hp, rfl⟩ := List.mem_map.mp hx
    unfold gm_poll_rows at hp
    exact of_decide_eq_true (List.mem_filter.mp hp).2

/-- C5: for every cursor `c`, the feed returns exactly the chat messages
with `created_at > c` and the polls (post-sweep) with `updated_at > c`,
merged into one list that is sorted ascending by `sort_at` (a chat item's
`sort_at` is its `created_at`, a poll item's is its `updated_at`); no item
whose `sort_at` equals `c` is returned.  With no cursor it returns the full
history, likewise merged and sorted. -/
theorem c5_fetch_returns_exactly_newer (db : DB) (now c : Nat) :
    (((get_messages db now (some (some c))).1).Perm
      ((((get_messages db now (some (some c))).2.messages.filter
          (fun m => decide (c < m.created_at))).map chat_row_to_item)
        ++ (((get_messages db now (some (some c))).2.polls.filter
          (fun p => decide (c < p.updated_at))).map
            (fun p => FeedItem.poll
              (poll_row_to_payload (get_messages db now (some (some c))).2 p)))))
    ∧ List.Pairwise (fun a b => FeedItem.sort_at a ≤ FeedItem.sort_at b)
        (get_messages db now (some (some c))).1
    ∧ (∀ x ∈ (get_messages db now (some (some c))).1, c < FeedItem.sort_at x)
    ∧ (((get_messages db now none).1).Perm
        (((get_messages db now none).2.messages.map chat_row_to_item)
          ++ ((get_messages db now none).2.polls.map
            (fun p => FeedItem.poll (poll_row_to_payload (get_messages db now none).2 p)))))
    ∧ List.Pairwise (fun a b => FeedItem.sort_at a ≤ FeedItem.sort_at b)
        (get_messages db now none).1 :=
  ⟨get_messages_perm_general db now (some (some c)),
   get_messages_pairwise_general db now (some (some c)),
   get_messages_cursor_bound db now c,
   get_messages_perm_general db now none,
   get_messages_pairwise_general db now none⟩

def db_c5w : DB := ⟨[⟨1, "bob", "zzz", "iv", 7⟩], [], [], [], [], 2, 1⟩

theorem c5_witness :
    3 < FeedItem.sort_at (chat_row_to_item ⟨1, "bob", "zzz", "iv", 7⟩) :=
  (c5_fetch_returns_exactly_newer db_c5w 0 3).2.2.1
    (chat_row_to_item ⟨1, "bob", "zzz", "iv", 7⟩)
    (by simp [db_c5w, get_messages, sweep_expired, List.mergeSort_singleton])
